import Mathlib

/-!
Verification of the e4stream client (`src/e4stream/client.py`,
`src/e4stream/messages.py`): a shallow embedding of its command texts,
line splitter, packet classifier/parser, tag scanner and session command
traces, with theorems settling the specification claims.

Python strings are modelled as Lean `String`; Python numbers produced by
`float(...)` on the plain decimal literals this protocol carries are
modelled exactly as rationals `ℚ` (a decimal literal denotes
mantissa / 10 ^ scale, which `float` then rounds; on the claims below only
the denoted numeric values matter, so the rational model is faithful).
A Python call that raises (`IndexError`, `ValueError`) is modelled as
`none` / an explicit crash constructor.
-/

/-- Wire text of the pause command (`COMMAND_PAUSE` in client.py). -/
def COMMAND_PAUSE : String := "pause ON\r\n"

/-- Wire text of the resume command (`COMMAND_RESUME`). -/
def COMMAND_RESUME : String := "pause OFF\r\n"

/-- Wire text of the disconnect command (`COMMAND_DISCONNECT`). -/
def COMMAND_DISCONNECT : String := "device_disconnect\r\n"

/-- Wire text of the device-enumeration command (`COMMAND_LIST`). -/
def COMMAND_LIST : String := "device_list\r\n"

/-- Wire text of the device-connect command (`COMMAND_DEV_CONNECT`). -/
def COMMAND_DEV_CONNECT (device_id : String) : String :=
  "device_connect " ++ device_id ++ "\r\n"

/-- Wire text of the subscribe command (`COMMAND_SUBSCRIBE`, identical text to
`messages._Send.SUBSCRIBE_L`, which is what `E4Client.subscribe` sends). -/
def COMMAND_SUBSCRIBE (subscription : String) : String :=
  "device_subscribe " ++ subscription ++ " ON\r\n"

/-- Expected subscription acknowledgement (`SUB_ACK_OK`, identical text to
`messages._Receive.SUB_OK_L`, which is what `E4Client.subscribe` checks). -/
def SUB_ACK_OK (subscription : String) : String :=
  "R device_subscribe " ++ subscription ++ " OK\n"

/-- Expected device-connect acknowledgement (`DEV_ACK_OK`). -/
def DEV_ACK_OK : String := "R device_connect OK\n"

/-- Expected pause acknowledgement (`PAUSE_ON_ACK`). -/
def PAUSE_ON_ACK : String := "R pause ON\n"

/-- The lost-connection sentinel phrase (`DISCONNECT_MESSAGE` in client.py). -/
def DISCONNECT_MESSAGE : String := "connection lost to device"

/-- Python's `needle in hay` substring test. -/
def containsSub (needle hay : String) : Bool :=
  hay.data.tails.any (fun suf => needle.data.isPrefixOf suf)

/-- Splits a character list at every character satisfying `p`, keeping empty
pieces, accumulating the current piece in reverse in `acc`. -/
def splitPredAux (p : Char → Bool) : List Char → List Char → List (List Char)
  | [], acc => [acc.reverse]
  | c :: rest, acc =>
    if p c then acc.reverse :: splitPredAux p rest []
    else splitPredAux p rest (c :: acc)

/-- `E4Client._split_response`: Python's `response.split("\n")` — every
line-feed is a cut point and empty pieces are kept. -/
def split_response (response : String) : List String :=
  (splitPredAux (fun c => c == '\n') response.data []).map (fun l => ⟨l⟩)

/-- Python's no-argument `str.split()`: split on whitespace runs, dropping
empty pieces. -/
def py_split (s : String) : List String :=
  ((splitPredAux Char.isWhitespace s.data []).filter (fun l => !l.isEmpty)).map
    (fun l => ⟨l⟩)

/-- Numeric value of a digit string. -/
def digitsVal (l : List Char) : Nat :=
  l.foldl (fun a c => 10 * a + (c.toNat - '0'.toNat)) 0

/-- Parses an unsigned decimal literal (`digits`, `digits.digits`, `.digits`
or `digits.`) into its exact decimal value: a mantissa and a power-of-ten
scale. Any other shape is a Python `ValueError`, i.e. `none`. -/
def parseDecDigits (l : List Char) : Option (Int × Nat) :=
  match splitPredAux (fun c => c == '.') l [] with
  | [ip] =>
    if !ip.isEmpty && ip.all Char.isDigit then some (((digitsVal ip : Nat) : Int), 0)
    else none
  | [ip, fp] =>
    if (!ip.isEmpty || !fp.isEmpty) && ip.all Char.isDigit && fp.all Char.isDigit
    then some (((digitsVal ip * 10 ^ fp.length + digitsVal fp : Nat) : Int), fp.length)
    else none
  | _ => none

/-- Parses an optionally signed decimal literal into mantissa and scale. -/
def parseDec (s : String) : Option (Int × Nat) :=
  match s.data with
  | '-' :: rest => (parseDecDigits rest).map (fun p => (-p.1, p.2))
  | '+' :: rest => parseDecDigits rest
  | l => parseDecDigits l

/-- The rational value denoted by a decimal literal with the given mantissa
and scale. -/
def decToRat (m : Int) (s : Nat) : ℚ := (m : ℚ) / 10 ^ s

/-- Python's `float(s)` on the plain decimal literals appearing on this wire
protocol, as the exact rational the literal denotes. -/
def pyFloat (s : String) : Option ℚ :=
  (parseDec s).map (fun p => decToRat p.1 p.2)

/-- Python's `s.replace(',', '.')`. -/
def comma_to_period (s : String) : String :=
  ⟨s.data.map (fun c => if c = ',' then '.' else c)⟩

/-- Replaces every period with a comma: produces the comma-separator spelling
of a numeric token. -/
def period_to_comma (s : String) : String :=
  ⟨s.data.map (fun c => if c = '.' then ',' else c)⟩

/-- Payload of a decoded sample: a scalar for every stream except the
accelerometer, which carries three components. -/
inductive Payload
  | scalar (v : ℚ)
  | triple (x y z : ℚ)
deriving DecidableEq

/-- A decoded data observation, `(stream, timestamp, data)` in
`E4Client._parse_packet`. -/
structure Sample where
  stream : String
  timestamp : ℚ
  payload : Payload
deriving DecidableEq

/-- `float(tokens[i].replace(',', '.'))`: `none` models the Python
`IndexError` (missing token) or `ValueError` (non-numeric token). -/
def parse_tok (tokens : List String) (i : Nat) : Option ℚ :=
  match tokens.get? i with
  | none => none
  | some t => pyFloat (comma_to_period t)

/-- The body of `E4Client._parse_packet` after `tokens = packet.split()`:
token 0 is the stream code, token 1 the timestamp; the code `"E4_Acc"` takes
payload tokens 2, 3 and 4, every other code takes payload token 2. `none`
models the packet raising (`MalformedSample` abstractly). -/
def parse_tokens (tokens : List String) : Option Sample :=
  match tokens.head?, parse_tok tokens 1 with
  | some stream, some ts =>
    if stream = "E4_Acc" then
      match parse_tok tokens 2, parse_tok tokens 3, parse_tok tokens 4 with
      | some x, some y, some z => some ⟨stream, ts, Payload.triple x y z⟩
      | _, _, _ => none
    else
      match parse_tok tokens 2 with
      | some v => some ⟨stream, ts, Payload.scalar v⟩
      | none => none
  | _, _ => none

/-- `E4Client._parse_packet`. -/
def parse_packet (packet : String) : Option Sample :=
  parse_tokens (py_split packet)

/-- `E4Client._is_data_packet`: false on the empty line, false on a line whose
first character is `R`, true otherwise. -/
def is_data_packet (p : String) : Bool :=
  if p = "" then false
  else if p.data.head? = some 'R' then false
  else true

/-- Three-way classification of a split line as the specification describes
it: empty lines are dropped, lines whose first character is `R` are
acknowledgements, everything else is candidate data. The tests and their
order are exactly those of `E4Client._is_data_packet`. -/
inductive PacketClass
  | drop
  | ack
  | data
deriving DecidableEq

/-- Classifies one split line; same tests, same order, as
`E4Client._is_data_packet`. -/
def classify_packet (p : String) : PacketClass :=
  if p = "" then PacketClass.drop
  else if p.data.head? = some 'R' then PacketClass.ack
  else PacketClass.data

/-- `E4Client.get_data` on one received buffer: split the decoded text on
line feeds, keep the packets passing `_is_data_packet`, parse each. The
sentinel check before this only logs (it raises nothing), so it does not
appear in the value; `none` models a parse exception escaping `get_data`. -/
def get_data (response : String) : Option (List Sample) :=
  ((split_response response).filter is_data_packet).mapM parse_packet

/-- The (effect-free) sentinel test `DISCONNECT_MESSAGE in response` guarding
the `logging.exception` call in `E4Client.get_data`. -/
def lost_connection_logged (response : String) : Bool :=
  containsSub DISCONNECT_MESSAGE response

/-- Result of `E4Client._scan_for_tag` on a packet list: `notFound` is the
Python `None`, `found t` a returned timestamp, `crash` an `IndexError` or
`ValueError` escaping from `float(packet.split()[1].replace(',', '.'))`. -/
inductive ScanResult
  | notFound
  | crash
  | found (t : ℚ)
deriving DecidableEq

/-- `E4Client._scan_for_tag`: first packet containing `"E4_Tag"` as a
substring wins, and its second whitespace token is parsed after
comma-to-period replacement. -/
def scan_for_tag : List String → ScanResult
  | [] => ScanResult.notFound
  | p :: rest =>
    if containsSub "E4_Tag" p then
      match parse_tok (py_split p) 1 with
      | some t => ScanResult.found t
      | none => ScanResult.crash
    else scan_for_tag rest

/-- One iteration's transport outcome inside `E4Client.poll_for_tag`: either
`socket.timeout` or a decoded received buffer. -/
inductive RecvEvent
  | timeout
  | data (buf : String)

/-- Result of running `E4Client.poll_for_tag` against a finite script of
receive outcomes: `pending` means the loop is still running when the script
ends, `crash` an exception other than `socket.timeout`. -/
inductive PollResult
  | pending
  | crash
  | found (t : ℚ)
deriving DecidableEq

/-- `E4Client.poll_for_tag` over a finite script of receive outcomes: a
`socket.timeout` is caught and the loop continues; a buffer is split and
scanned, returning on the first found tag. -/
def poll_for_tag : List RecvEvent → PollResult
  | [] => PollResult.pending
  | RecvEvent.timeout :: rest => poll_for_tag rest
  | RecvEvent.data buf :: rest =>
    match scan_for_tag (split_response buf) with
    | ScanResult.found t => PollResult.found t
    | ScanResult.crash => PollResult.crash
    | ScanResult.notFound => poll_for_tag rest

/-- Observable outcome of one `E4Client.subscribe(subscription)` call, given
the server's reply: what was sent, whether the ack-mismatch branch logged,
and whether the call raised. In the source the mismatch branch is
`logging.exception(...)`, which only logs and returns, so the call never
raises and always falls through to `logging.info('Subscribed successfully.')`. -/
structure SubscribeOutcome where
  sent : List String
  ackMismatchLogged : Bool
  raised : Bool
deriving DecidableEq

/-- `E4Client.subscribe`: send the subscribe command, compare the reply with
the expected ack, log on mismatch, return normally either way. -/
def subscribe_run (subscription response : String) : SubscribeOutcome :=
  { sent := [COMMAND_SUBSCRIBE subscription]
  , ackMismatchLogged := response != SUB_ACK_OK subscription
  , raised := false }

/-- Observable outcome of one `E4Client._connect_device()` call, given the
enumeration reply and the device-connect reply. Both failure branches are
`logging.exception(...)`, which only logs: the method always goes on to send
`device_connect` and always returns normally. -/
structure ConnectDeviceOutcome where
  sent : List String
  deviceMissingLogged : Bool
  ackMismatchLogged : Bool
  raised : Bool
deriving DecidableEq

/-- `E4Client._connect_device`: send `device_list`, test membership of the
device id in the reply (logging when absent), then send `device_connect`
and test its ack (logging on mismatch); returns normally in all cases. -/
def connect_device_run (device_id list_response connect_response : String) :
    ConnectDeviceOutcome :=
  { sent := [COMMAND_LIST, COMMAND_DEV_CONNECT device_id]
  , deviceMissingLogged := !(containsSub device_id list_response)
  , ackMismatchLogged := connect_response != DEV_ACK_OK
  , raised := false }

/-- A transport-level event performed by the client, used to trace which
commands a compound operation issues and in what order. -/
inductive Ev
  | sockConnect
  | send (wire : String)
  | recv
  | sockShutdown
  | sockClose
  | newSocket
deriving DecidableEq

/-- Event trace of `E4Client.connect()`: socket connect, then
`_connect_device` (list exchange, device-connect exchange), then
`_pause_stream`, then one subscribe exchange per subscription. -/
def connect_ev (device_id : String) (subs : List String) : List Ev :=
  [Ev.sockConnect,
   Ev.send COMMAND_LIST, Ev.recv,
   Ev.send (COMMAND_DEV_CONNECT device_id), Ev.recv,
   Ev.send COMMAND_PAUSE, Ev.recv]
  ++ subs.flatMap (fun s => [Ev.send (COMMAND_SUBSCRIBE s), Ev.recv])

/-- Event trace of `E4Client.reset()`: shutdown and close the socket, open a
fresh one, then — inside `reset` itself — call `connect()`. -/
def reset_ev (device_id : String) (subs : List String) : List Ev :=
  [Ev.sockShutdown, Ev.sockClose, Ev.newSocket] ++ connect_ev device_id subs

/-- Event trace of `E4Client.reconnect()`: `reset()` followed by a second
`connect()`. -/
def reconnect_ev (device_id : String) (subs : List String) : List Ev :=
  reset_ev device_id subs ++ connect_ev device_id subs

/-- Event trace of `E4Client.disconnect()`: send the disconnect command, then
shut down and close the socket. -/
def disconnect_ev : List Ev :=
  [Ev.send COMMAND_DISCONNECT, Ev.sockShutdown, Ev.sockClose]

/-- Helper: a token index past the end of the token list makes `parse_tok`
fail (the Python `IndexError`). -/
theorem parse_tok_none_of_le (tokens : List String) (i : Nat)
    (h : tokens.length ≤ i) : parse_tok tokens i = none := by
  unfold parse_tok
  rw [List.get?_eq_none.mpr h]

/-- Helper: with the accelerometer code in front and fewer than five tokens
in total (so fewer than three payload tokens), `parse_tokens` fails. -/
theorem parse_tokens_acc_short (toks : List String)
    (h1 : toks.head? = some "E4_Acc") (h2 : toks.length < 5) :
    parse_tokens toks = none := by
  have h4 : parse_tok toks 4 = none := parse_tok_none_of_le toks 4 (by omega)
  unfold parse_tokens
  rw [h1]
  cases h1t : parse_tok toks 1 with
  | none => rfl
  | some ts =>
    cases h2t : parse_tok toks 2 with
    | none => rfl
    | some x =>
      cases h3t : parse_tok toks 3 with
      | none => rfl
      | some y =>
        rw [h4]
        simp

/-- Helper: with any non-accelerometer code in front and fewer than three
tokens in total (so no payload token), `parse_tokens` fails. -/
theorem parse_tokens_other_short (toks : List String) (c : String)
    (h1 : toks.head? = some c) (hc : c ≠ "E4_Acc") (h2 : toks.length < 3) :
    parse_tokens toks = none := by
  have h2t : parse_tok toks 2 = none := parse_tok_none_of_le toks 2 (by omega)
  unfold parse_tokens
  rw [h1]
  cases h1t : parse_tok toks 1 with
  | none => rfl
  | some ts => simp [hc, h2t]

/-- Helper: `comma_to_period` erases the effect of `period_to_comma`. -/
theorem comma_period_swap (s : String) :
    comma_to_period (period_to_comma s) = comma_to_period s := by
  obtain ⟨l⟩ := s
  simp only [comma_to_period, period_to_comma, List.map_map]
  induction l with
  | nil => rfl
  | cons c cs ih =>
    simp only [List.map_cons, Function.comp] at ih ⊢
    have hc : (if (if c = '.' then ',' else c) = ',' then '.' else
        (if c = '.' then ',' else c)) = (if c = ',' then '.' else c) := by
      by_cases h1 : c = '.'
      · simp [h1]
      · by_cases h2 : c = ',' <;> simp [h1, h2]
    rw [hc]
    have htail := congrArg String.data ih
    simp only [String.data] at htail
    rw [htail]

/-- Helper: `parse_tok` at a positive index ignores a comma-respelling of the
non-head tokens, since the comma-to-period replacement undoes it. -/
theorem parse_tok_swap (code : String) (nums : List String) (i : Nat) :
    parse_tok (code :: nums.map period_to_comma) (i + 1) =
      parse_tok (code :: nums) (i + 1) := by
  simp only [parse_tok, List.get?_cons_succ, List.get?_map]
  cases h : nums.get? i with
  | none => rfl
  | some a => simp [comma_period_swap]

/-- Helper: `scan_for_tag` is exactly a `find?` on the substring test
followed by a parse of the second whitespace token. -/
theorem scan_for_tag_find (packets : List String) :
    scan_for_tag packets =
      match packets.find? (fun p => containsSub "E4_Tag" p) with
      | none => ScanResult.notFound
      | some p =>
        match parse_tok (py_split p) 1 with
        | some t => ScanResult.found t
        | none => ScanResult.crash := by
  induction packets with
  | nil => rfl
  | cons p rest ih =>
    by_cases h : containsSub "E4_Tag" p = true
    · simp [scan_for_tag, List.find?_cons_of_pos, h]
    · simp only [Bool.not_eq_true] at h
      simp [scan_for_tag, List.find?_cons_of_neg, h, ih]

/-- Helper: the source's boolean data filter agrees with the three-way
classification. -/
theorem is_data_packet_eq_classify (p : String) :
    is_data_packet p = decide (classify_packet p = PacketClass.data) := by
  by_cases h1 : p = ""
  · simp [is_data_packet, classify_packet, h1]
  · by_cases h2 : p.data.head? = some 'R' <;>
      simp [is_data_packet, classify_packet, h1, h2]

/-- C1: the claim says line splitting is chunk-boundary independent, with the
text after a chunk's final line feed retained and prepended to the next
chunk. The source's `_split_response` is a stateless `split("\n")` applied
to each received buffer separately, so feeding the buffer `"ab\ncd\n"` as
the chunks `"ab\nc"` and `"d\n"` yields the line sequence
`["ab", "c", "d", ""]` instead of the whole-buffer sequence
`["ab", "cd", ""]`: the code violates the claim. -/
theorem c1_chunk_dependence :
    split_response "ab\nc" ++ split_response "d\n" = ["ab", "c", "d", ""]
    ∧ split_response "ab\ncd\n" = ["ab", "cd", ""]
    ∧ split_response "ab\nc" ++ split_response "d\n" ≠
        split_response "ab\ncd\n" :=
  ⟨by decide, by decide, by decide⟩

/-- C2: the claim says a subscription ack mismatch makes `subscribe` fail
with an AckMismatch error. In the source the mismatch branch is a bare
`logging.exception`, so on the reply `"R device_subscribe BVP FAIL\n"` the
call logs, raises nothing, and falls through to log `Subscribed
successfully.`: the code violates the claim. -/
theorem c2_subscribe_swallows_mismatch :
    (subscribe_run "BVP" "R device_subscribe BVP FAIL\n").ackMismatchLogged
        = true
    ∧ (subscribe_run "BVP" "R device_subscribe BVP FAIL\n").raised = false
    ∧ (subscribe_run "BVP" "R device_subscribe BVP FAIL\n").sent
        = [COMMAND_SUBSCRIBE "BVP"] :=
  ⟨by decide, by decide, by decide⟩

/-- C3: the claim says `connect()` fails with DeviceNotFound, issuing no
further commands, when the device id is absent from the enumeration reply.
In the source `_connect_device` only logs when the id is missing and then
goes on to send `device_connect` and return normally: the code violates the
claim. -/
theorem c3_connect_swallows_missing_device :
    (connect_device_run "Device123" "Empatica E4 devices: none"
        DEV_ACK_OK).deviceMissingLogged = true
    ∧ (connect_device_run "Device123" "Empatica E4 devices: none"
        DEV_ACK_OK).raised = false
    ∧ COMMAND_DEV_CONNECT "Device123" ∈
        (connect_device_run "Device123" "Empatica E4 devices: none"
          DEV_ACK_OK).sent :=
  ⟨by decide, by decide, by decide⟩

/-- C4: the claim says a buffer containing the lost-connection sentinel makes
`getData` fail with ConnectionLost and return no samples. In the source the
sentinel test only guards a `logging.exception`; on the buffer
`"Rconnection lost to device\nE4_Gsr 1.0 2.0\n"` (sentinel present) the call
continues and returns the decoded sample of the second line: the code
violates the claim. -/
theorem c4_get_data_swallows_lost_connection :
    lost_connection_logged "Rconnection lost to device\nE4_Gsr 1.0 2.0\n"
        = true
    ∧ get_data "Rconnection lost to device\nE4_Gsr 1.0 2.0\n" =
        some [⟨"E4_Gsr", decToRat 10 1, Payload.scalar (decToRat 20 1)⟩] :=
  ⟨by decide, rfl⟩

/-- C5: a data line with the accelerometer code and fewer than 3 payload
tokens fails to decode; with exactly 3 numeric payload tokens it decodes to
a 3-component payload; any other code requires (at least) 1 payload token,
and fewer fails. -/
theorem c5_payload_arity :
    (∀ p : String,
        (py_split p).head? = some "E4_Acc" → (py_split p).length < 5 →
        parse_packet p = none)
    ∧ (∀ (p ts v1 v2 v3 : String) (t x y z : ℚ),
        py_split p = ["E4_Acc", ts, v1, v2, v3] →
        pyFloat (comma_to_period ts) = some t →
        pyFloat (comma_to_period v1) = some x →
        pyFloat (comma_to_period v2) = some y →
        pyFloat (comma_to_period v3) = some z →
        parse_packet p = some ⟨"E4_Acc", t, Payload.triple x y z⟩)
    ∧ (∀ (p c : String),
        (py_split p).head? = some c → c ≠ "E4_Acc" →
        (py_split p).length < 3 → parse_packet p = none) := by
  refine ⟨?_, ?_, ?_⟩
  · intro p h1 h2
    exact parse_tokens_acc_short (py_split p) h1 h2
  · intro p ts v1 v2 v3 t x y z hs h1 h2 h3 h4
    unfold parse_packet
    rw [hs]
    simp [parse_tokens, parse_tok, h1, h2, h3, h4]
  · intro p c h1 hc h2
    exact parse_tokens_other_short (py_split p) c h1 hc h2

/-- C5 witness: `"E4_Acc 1,0 2 3"` (2 payload tokens) fails,
`"E4_Acc 1 2 3 4"` decodes to a triple, `"E4_Gsr 1"` (0 payload tokens)
fails. -/
theorem c5_payload_arity_witness :
    parse_packet "E4_Acc 1,0 2 3" = none
    ∧ parse_packet "E4_Acc 1 2 3 4" =
        some ⟨"E4_Acc", decToRat 1 0,
          Payload.triple (decToRat 2 0) (decToRat 3 0) (decToRat 4 0)⟩
    ∧ parse_packet "E4_Gsr 1" = none :=
  ⟨c5_payload_arity.1 "E4_Acc 1,0 2 3" (by decide) (by decide),
   c5_payload_arity.2.1 "E4_Acc 1 2 3 4" "1" "2" "3" "4"
     (decToRat 1 0) (decToRat 2 0) (decToRat 3 0) (decToRat 4 0)
     (by decide) rfl rfl rfl rfl,
   c5_payload_arity.2.2 "E4_Gsr 1" "E4_Gsr" (by decide) (by decide)
     (by decide)⟩

/-- C6: a data line tokenizing as a stream code followed by numeric tokens
decodes to the same stream code, timestamp and payload whether the numeric
tokens are spelled with period decimal separators or with comma ones (each
token has commas replaced by periods before numeric parsing). -/
theorem c6_decimal_separator :
    ∀ (lineC lineP code : String) (nums : List String),
      py_split lineC = code :: nums.map period_to_comma →
      py_split lineP = code :: nums →
      parse_packet lineC = parse_packet lineP := by
  intro lineC lineP code nums hC hP
  unfold parse_packet
  rw [hC, hP]
  unfold parse_tokens
  have e1 : parse_tok (code :: nums.map period_to_comma) 1 =
      parse_tok (code :: nums) 1 := parse_tok_swap code nums 0
  have e2 : parse_tok (code :: nums.map period_to_comma) 2 =
      parse_tok (code :: nums) 2 := parse_tok_swap code nums 1
  have e3 : parse_tok (code :: nums.map period_to_comma) 3 =
      parse_tok (code :: nums) 3 := parse_tok_swap code nums 2
  have e4 : parse_tok (code :: nums.map period_to_comma) 4 =
      parse_tok (code :: nums) 4 := parse_tok_swap code nums 3
  rw [e1, e2, e3, e4]
  simp only [List.head?_cons]

/-- C6 witness: the comma spelling `"E4_Bvp 12,50 0,25"` decodes exactly as
the period spelling `"E4_Bvp 12.50 0.25"`. -/
theorem c6_decimal_separator_witness :
    parse_packet "E4_Bvp 12,50 0,25" = parse_packet "E4_Bvp 12.50 0.25"
    ∧ parse_packet "E4_Bvp 12.50 0.25" =
        some ⟨"E4_Bvp", decToRat 1250 2, Payload.scalar (decToRat 25 2)⟩ :=
  ⟨c6_decimal_separator "E4_Bvp 12,50 0,25" "E4_Bvp 12.50 0.25" "E4_Bvp"
     ["12.50", "0.25"] (by decide) (by decide), rfl⟩

/-- C7: a split line is classified as an acknowledgement exactly when its
first character is `R`; the empty line is neither acknowledgement nor data
(it is dropped); and `get_data` parses exactly the data-classified lines, so
an acknowledgement line is never decoded as a sample. -/
theorem c7_classification :
    (∀ l : String,
        classify_packet l = PacketClass.ack ↔ l.data.head? = some 'R')
    ∧ classify_packet "" = PacketClass.drop
    ∧ ∀ response : String,
        get_data response =
          ((split_response response).filter
            (fun p => decide (classify_packet p = PacketClass.data))).mapM
            parse_packet := by
  refine ⟨?_, by decide, ?_⟩
  · intro l
    by_cases h1 : l = ""
    · subst h1; decide
    · by_cases h2 : l.data.head? = some 'R' <;>
        simp [classify_packet, h1, h2]
  · intro response
    unfold get_data
    rw [List.filter_congr (fun a _ => is_data_packet_eq_classify a)]

/-- C7 witness: the pause acknowledgement line is classified as an
acknowledgement, and the empty line is dropped. -/
theorem c7_classification_witness :
    classify_packet "R pause ON" = PacketClass.ack
    ∧ classify_packet "" = PacketClass.drop :=
  ⟨(c7_classification.1 "R pause ON").mpr (by decide),
   c7_classification.2.1⟩

/-- C8: scanning packets in arrival order, the first packet carrying the tag
stream code (and no earlier packet mentioning it) yields its timestamp; in
particular a poll whose first receive times out and whose second buffer
holds `"E4_Tag 12,50"` after an unrelated sample recovers from the timeout
and returns 12.50. -/
theorem c8_poll_for_tag :
    (∀ (pre post tail : List String) (p ts : String) (t : ℚ),
        (∀ q ∈ pre, containsSub "E4_Tag" q = false) →
        containsSub "E4_Tag" p = true →
        py_split p = "E4_Tag" :: ts :: tail →
        pyFloat (comma_to_period ts) = some t →
        scan_for_tag (pre ++ p :: post) = ScanResult.found t)
    ∧ poll_for_tag
        [RecvEvent.timeout,
         RecvEvent.data "E4_Gsr 3,2 0,5\nE4_Tag 12,50\n"] =
        PollResult.found (decToRat 1250 2)
    ∧ decToRat 1250 2 = 25 / 2 := by
  refine ⟨?_, rfl, by norm_num [decToRat]⟩
  intro pre post tail p ts t
  induction pre with
  | nil =>
    intro _ hp hsplit ht
    simp [scan_for_tag, hp, parse_tok, hsplit, ht]
  | cons q pre ih =>
    intro hpre hp hsplit ht
    have hq : containsSub "E4_Tag" q = false :=
      hpre q (List.mem_cons_self q pre)
    have hstep : scan_for_tag ((q :: pre) ++ p :: post) =
        scan_for_tag (pre ++ p :: post) := by
      simp [scan_for_tag, hq]
    rw [hstep]
    exact ih (fun r hr => hpre r (List.mem_cons_of_mem q hr)) hp hsplit ht

/-- C8 witness: the tag line after one unrelated sample yields 12.50. -/
theorem c8_poll_for_tag_witness :
    scan_for_tag ["E4_Bvp 1,0 64,2", "E4_Tag 12,50"] =
      ScanResult.found (decToRat 1250 2) :=
  c8_poll_for_tag.1 ["E4_Bvp 1,0 64,2"] [] [] "E4_Tag 12,50" "12,50"
    (decToRat 1250 2) (by decide) (by decide) (by decide) rfl

/-- C9: the claim says `reconnect()` equals `disconnect()` (errors ignored)
followed by exactly one fresh `connect()`. In the source `reconnect` calls
`reset()` — which itself ends by calling `connect()` — and then calls
`connect()` again, so the device-connect handshake and each subscription
command are issued twice; and `reset` never sends the `device_disconnect`
command at all: the code violates the claim. -/
theorem c9_reconnect_double_connect :
    (reconnect_ev "Device123" ["ACC"]).count
        (Ev.send (COMMAND_DEV_CONNECT "Device123")) = 2
    ∧ (reconnect_ev "Device123" ["ACC"]).count
        (Ev.send (COMMAND_SUBSCRIBE "ACC")) = 2
    ∧ Ev.send COMMAND_DISCONNECT ∉ reconnect_ev "Device123" ["ACC"]
    ∧ disconnect_ev.count (Ev.send COMMAND_DISCONNECT) = 1 :=
  ⟨by decide, by decide, by decide, by decide⟩

/-- C10: tag detection matches by substring: `scan_for_tag` is exactly a
first-match search for `"E4_Tag"` anywhere in a packet's text, never
inspecting the first token, and the returned value is the matched line's
second whitespace token parsed after comma-to-period replacement. An
acknowledgement line mentioning `E4_Tag` is treated as a match (here
crashing on its non-numeric second token), and a line carrying `E4_Tag`
outside the first token returns that line's second token, 7.5. -/
theorem c10_substring_tag_match :
    (∀ packets : List String,
        scan_for_tag packets =
          match packets.find? (fun p => containsSub "E4_Tag" p) with
          | none => ScanResult.notFound
          | some p =>
            match parse_tok (py_split p) 1 with
            | some t => ScanResult.found t
            | none => ScanResult.crash)
    ∧ scan_for_tag ["R device_subscribe E4_Tag OK"] = ScanResult.crash
    ∧ scan_for_tag ["Foo 7,5 E4_Tag"] = ScanResult.found (decToRat 75 1)
    ∧ decToRat 75 1 = 15 / 2 :=
  ⟨scan_for_tag_find, rfl, rfl, by norm_num [decToRat]⟩
